import Mathlib

/-!
Verification development for the VolumetricVideoProcess orchestration layer.

The definitions below are shallow embeddings of the two orchestration
scripts of the repository:

* `src/Volumetrize/postshot_train.py` — the batch scheduler: it resolves a
  `{start, count, reverse, test}` plan into a sequence of frame indices and
  trains each selected frame in order (no try/except around the loop body).
* `src/Volumetrize/colalign.py` — the reference-first COLMAP pipeline: it
  discovers `frame_*` directories, fully calibrates the first one, and then
  propagates the reference artifacts into every other frame with a
  continue-on-error loop.

External tools and the filesystem are modelled by explicit environments:
a tool invocation is a return code plus captured output, the filesystem
facts the scripts branch on (directory existence, artifact presence) are
boolean fields of an environment record.
-/

/-- Direction of batch processing; `Reverse` corresponds to the
`--reverse` flag of `postshot_train.py`. -/
inductive Direction where
  | Forward
  | Reverse
  deriving DecidableEq, Repr

/-- A batch plan, built from the CLI arguments of `postshot_train.py`:
`--start_from` (`start`), `--count` (`count`), `--reverse` (`direction`)
and `--test` (`testMode`). `start` and `count` are Python ints, hence
modelled as `Int`. -/
structure BatchPlan where
  start : Int
  count : Int
  direction : Direction
  testMode : Bool
  deriving DecidableEq, Repr

/-- `postshot_train.py` line 220: `if count <= 0: count = len(frame_folders)`. -/
def effectiveCount (count : Int) (N : Nat) : Int :=
  if count ≤ 0 then (N : Int) else count

/-- The index sequence of Python `range(start, start + count)`
(`postshot_train.py` line 232): `count` consecutive values from `start`. -/
def rawForward (start : Int) (count : Nat) : List Int :=
  (List.range count).map (fun j => start + (j : Int))

/-- The index sequence of Python `range(start, start - count - 1, -1)`
(`postshot_train.py` line 225): `count + 1` consecutive values counting
down from `start` (the stop bound `start - count - 1` is exclusive). -/
def rawReverse (start : Int) (count : Nat) : List Int :=
  (List.range (count + 1)).map (fun j => start - (j : Int))

/-- The `if i < 0 or i >= len(frame_folders): break` guard inside both
loops of `postshot_train.py` (lines 226 and 233): the processed indices
are the longest prefix of the raw range that stays inside `[0, N)`. -/
def takeValid (N : Nat) : List Int → List Int
  | [] => []
  | i :: rest => if 0 ≤ i ∧ i < (N : Int) then i :: takeValid N rest else []

/-- The resolved index sequence of a `BatchPlan` over `N` discovered
frames, per `postshot_train.py` lines 211–236: test mode yields `[0]`
(only `frame_folders[0]` is trained); otherwise a nonpositive count is
replaced by `N` and the forward/reverse range is walked until its first
out-of-bounds index. -/
def resolvePlan (plan : BatchPlan) (N : Nat) : List Int :=
  if plan.testMode then [0]
  else
    let c := effectiveCount plan.count N
    match plan.direction with
    | .Forward => takeValid N (rawForward plan.start c.toNat)
    | .Reverse => takeValid N (rawReverse plan.start c.toNat)

/-- The batch loop body of `postshot_train.py` (lines 224–236): each index
is trained in order; `train_frame` failures are not caught, so the first
failing frame aborts the rest of the loop. Returns the indices for which
`train_frame` was invoked and whether the loop ran to completion. -/
def trainLoop (failsAt : Int → Bool) : List Int → List Int × Bool
  | [] => ([], true)
  | i :: rest =>
    if failsAt i then ([i], false)
    else
      let r := trainLoop failsAt rest
      (i :: r.1, r.2)

/-- A full scheduler run of `postshot_train.py` after argument/config
validation: test mode trains `frame_folders[0]` only, otherwise the
resolved plan is walked by the uncaught training loop. -/
def postshotRun (failsAt : Int → Bool) (plan : BatchPlan) (N : Nat) :
    List Int × Bool :=
  if plan.testMode then
    if failsAt 0 then ([0], false) else ([0], true)
  else trainLoop failsAt (resolvePlan plan N)

/-- An observable event of a `colalign.py` run. `refTool s` is the `s`-th
COLMAP invocation of `process_first_frame` (0 feature extraction,
1 exhaustive matching, 2 mapping); `subCopy i a` is the copy of the `a`-th
reference artifact (0 cameras.bin, 1 images.bin, 2 points3D.bin) into
frame `i`; `subTool i s` is the `s`-th COLMAP invocation of
`process_subsequent_frame` for frame `i` (2 is point triangulation);
`subSkip i` is the missing-images skip; `subFail i` is the caught
per-frame failure report naming frame `i`. -/
inductive CEvent where
  | refTool (stage : Nat)
  | subCopy (frame : Nat) (artifact : Nat)
  | subTool (frame : Nat) (stage : Nat)
  | subSkip (frame : Nat)
  | subFail (frame : Nat)
  deriving DecidableEq, Repr

/-- The frame a `colalign.py` event concerns (reference events concern
frame 0). -/
def CEvent.frameIdx : CEvent → Nat
  | .refTool _ => 0
  | .subCopy i _ => i
  | .subTool i _ => i
  | .subSkip i => i
  | .subFail i => i

/-- The environment a `colalign.py` run observes: which frame folders
contain an `images` directory, the return codes of the reference COLMAP
invocations, whether the reference `sparse` directory holds a
reconstruction subdirectory, which reference artifacts exist, and the
return codes of the per-frame COLMAP invocations. -/
structure CEnv where
  hasImages : Nat → Bool
  refToolRc : Nat → Int
  reconDirExists : Bool
  camerasPresent : Bool
  imagesPresent : Bool
  points3DPresent : Bool
  subToolRc : Nat → Nat → Int

/-- `process_first_frame` (`colalign.py` lines 31–67): the three COLMAP
invocations run in order; the first nonzero return code raises out of
`run_colmap_command` (line 16) and stops the sequence. Returns the events
and whether the reference calibration succeeded. -/
def processRefEvents (env : CEnv) : List CEvent × Bool :=
  if env.refToolRc 0 ≠ 0 then ([.refTool 0], false)
  else if env.refToolRc 1 ≠ 0 then ([.refTool 0, .refTool 1], false)
  else if env.refToolRc 2 ≠ 0 then ([.refTool 0, .refTool 1, .refTool 2], false)
  else ([.refTool 0, .refTool 1, .refTool 2], true)

/-- One iteration of the subsequent-frame loop of `colalign.py`
(lines 179–190) for frame `i`: a missing `images` folder is skipped with a
warning; otherwise `process_subsequent_frame` (lines 69–144) runs — the
reconstruction-directory check, the three artifact copies in the fixed
order cameras.bin, images.bin, points3D.bin (each raising when its source
is absent), then the three COLMAP invocations — and any raise is caught by
the `except` clause, which reports the failure against frame `i`. -/
def processSubEvents (env : CEnv) (i : Nat) : List CEvent :=
  if env.hasImages i = false then [.subSkip i]
  else if env.reconDirExists = false then [.subFail i]
  else if env.camerasPresent = false then [.subFail i]
  else if env.imagesPresent = false then [.subCopy i 0, .subFail i]
  else if env.points3DPresent = false then [.subCopy i 0, .subCopy i 1, .subFail i]
  else
    [.subCopy i 0, .subCopy i 1, .subCopy i 2] ++
    (if env.subToolRc i 0 ≠ 0 then [.subTool i 0, .subFail i]
     else if env.subToolRc i 1 ≠ 0 then [.subTool i 0, .subTool i 1, .subFail i]
     else if env.subToolRc i 2 ≠ 0 then
       [.subTool i 0, .subTool i 1, .subTool i 2, .subFail i]
     else [.subTool i 0, .subTool i 1, .subTool i 2])

/-- A full `colalign.py` run over `N` discovered frames (`main`,
lines 146–192): the first frame's `images` folder is required (line 173,
uncaught raise), then the reference frame is fully calibrated — an
uncaught `RuntimeError` from any of its invocations aborts the whole run —
and only on reference success does the loop over frames `1..N-1` run, each
iteration protected by `try/except ... continue`. Returns the event trace
and whether the run reached the final success message. -/
def colalignRun (env : CEnv) (N : Nat) : List CEvent × Bool :=
  if env.hasImages 0 = false then ([], false)
  else
    let r := processRefEvents env
    if r.2 = false then (r.1, false)
    else
      (r.1 ++
        ((List.range (N - 1)).map (fun j => processSubEvents env (j + 1))).flatten,
       true)

/-- Whether `process_subsequent_frame` would raise for frame `i` in
environment `env`, assuming its `images` folder exists: the reference
reconstruction directory is missing, a reference artifact is missing, or
one of the frame's COLMAP invocations returns a nonzero code. -/
def subFrameFails (env : CEnv) (i : Nat) : Bool :=
  !env.reconDirExists || !env.camerasPresent || !env.imagesPresent ||
    !env.points3DPresent || decide (env.subToolRc i 0 ≠ 0) ||
    decide (env.subToolRc i 1 ≠ 0) || decide (env.subToolRc i 2 ≠ 0)

/-- An immediate child of the project root, as `colalign.py` line 159
observes it: its name, whether it is a directory, and whether it contains
an `images` subdirectory. -/
structure DirEntry where
  name : String
  isDir : Bool
  hasImages : Bool
  deriving DecidableEq, Repr

/-- The discovery filter of `colalign.py` line 160 (and
`postshot_train.py` line 183): `d.is_dir() and d.name.startswith("frame_")`.
The Python `str.startswith` test is modelled on the character lists of the
strings. Note the filter does not inspect `hasImages`. -/
def frameQualifies (d : DirEntry) : Bool :=
  d.isDir && "frame_".data.isPrefixOf d.name.data

/-- Ordering of directory entries by name, modelling Python `sorted` on
paths (lexicographic by path string, compared character by character). -/
def entryLE (a b : DirEntry) : Prop :=
  a.name.data ≤ b.name.data

instance : DecidableRel entryLE :=
  fun a b => inferInstanceAs (Decidable (a.name.data ≤ b.name.data))

instance : IsTotal DirEntry entryLE :=
  ⟨fun a b => le_total a.name.data b.name.data⟩

instance : IsTrans DirEntry entryLE :=
  ⟨fun _ _ _ h1 h2 => le_trans h1 h2⟩

/-- Frame discovery (`colalign.py` lines 158–163): the immediate
subdirectories whose names start with `frame_`, sorted by name, with a
`RuntimeError` when none are found. No `images` check is performed here. -/
def discoverFrames (entries : List DirEntry) : Except String (List DirEntry) :=
  let frames := List.insertionSort entryLE (entries.filter frameQualifies)
  if frames.isEmpty then Except.error "No frame folders found"
  else Except.ok frames

/-- The observable outcome of one external tool invocation: its exit code
and captured stdout/stderr. -/
structure ToolResult where
  returncode : Int
  stdout : String
  stderr : String
  deriving DecidableEq, Repr

/-- `run_colmap_command` (`colalign.py` lines 7–19): prints the command,
and on a nonzero exit code prints the command again with the captured
stdout and stderr, then raises a `RuntimeError` whose message holds only
the return code. Returns the printed lines and the Python outcome (the
raised message, or the completed result). -/
def run_colmap_command (cmd : List String) (res : ToolResult) :
    List String × Except String ToolResult :=
  let header := ["Running: " ++ String.intercalate " " cmd]
  if res.returncode ≠ 0 then
    (header ++
      ["Error running command: " ++ String.intercalate " " cmd,
       "stdout: " ++ res.stdout,
       "stderr: " ++ res.stderr],
     Except.error ("COLMAP command failed with return code " ++
       toString res.returncode))
  else
    (header ++ ["Command completed successfully"], Except.ok res)

/-- `run_command` (`postshot_train.py` lines 81–112): stderr is merged
into stdout (`stderr=subprocess.STDOUT`), every line is printed as it
arrives, and a nonzero exit code raises a `RuntimeError` whose message
holds only the return code. -/
def run_command (cmd : List String) (mergedOutput : List String) (rc : Int) :
    List String × Except String Int :=
  let log := ("Running: " ++ String.intercalate " " cmd) :: mergedOutput
  if rc ≠ 0 then
    (log ++ ["Error: Command failed with return code " ++ toString rc],
     Except.error ("Command failed with return code " ++ toString rc))
  else
    (log ++ ["Command completed successfully"], Except.ok rc)

/-- The per-frame failure report printed by the `except` clause of
`colalign.py` line 189: the frame's name and the exception text. -/
def frameFailureReport (frameName msg : String) : String :=
  "Error processing frame " ++ frameName ++ ": " ++ msg

/-- The artifact files touched by the copy phase of
`process_subsequent_frame` (`colalign.py` lines 83–113): the contents
(`none` = absent) of the three reference artifacts in the first frame's
reconstruction directory and of their copies in the destination frame's
reconstruction directory. Source and destination are distinct paths —
`main` passes only `frame_folders[1:]` to this function, so the
destination frame is never the first frame. -/
structure ArtifactFS where
  camerasSrc : Option String
  imagesSrc : Option String
  points3DSrc : Option String
  camerasDst : Option String
  imagesDst : Option String
  points3DDst : Option String
  deriving DecidableEq, Repr

/-- The copy phase of `process_subsequent_frame` (`colalign.py`
lines 83–113): `shutil.copy2` of cameras.bin, then images.bin, then
points3D.bin, each guarded by a source-existence check that raises a
`RuntimeError` when the source is absent. Returns the filesystem state at
exit (normal or raising) and the raised message, if any. -/
def copyArtifacts (fs : ArtifactFS) : ArtifactFS × Option String :=
  match fs.camerasSrc with
  | none => (fs, some "cameras.bin not found in first frame")
  | some c =>
    let fs1 := { fs with camerasDst := some c }
    match fs1.imagesSrc with
    | none => (fs1, some "images.bin not found in first frame")
    | some im =>
      let fs2 := { fs1 with imagesDst := some im }
      match fs2.points3DSrc with
      | none => (fs2, some "points3D.bin not found in first frame")
      | some p => ({ fs2 with points3DDst := some p }, none)

/-- A concrete environment in which the last reference COLMAP invocation
(the mapper) fails and everything else would succeed. -/
def envRefFail : CEnv where
  hasImages := fun _ => true
  refToolRc := fun s => if s = 2 then 1 else 0
  reconDirExists := true
  camerasPresent := true
  imagesPresent := true
  points3DPresent := true
  subToolRc := fun _ _ => 0

/-- A concrete environment in which only frame 2's feature extraction
fails. -/
def envSubFail : CEnv where
  hasImages := fun _ => true
  refToolRc := fun _ => 0
  reconDirExists := true
  camerasPresent := true
  imagesPresent := true
  points3DPresent := true
  subToolRc := fun i s => if i = 2 ∧ s = 0 then 1 else 0

/-- With no training failure the loop processes exactly its input order. -/
theorem trainLoop_noFail (l : List Int) :
    trainLoop (fun _ => false) l = (l, true) := by
  induction l with
  | nil => rfl
  | cons i rest ih => simp [trainLoop, ih]

/-- Every index kept by the bounds guard lies in `[0, N)`. -/
theorem takeValid_bounds (N : Nat) (l : List Int) :
    ∀ i ∈ takeValid N l, 0 ≤ i ∧ i < (N : Int) := by
  induction l with
  | nil => intro i h; simp [takeValid] at h
  | cons a rest ih =>
    intro i h
    by_cases ha : 0 ≤ a ∧ a < (N : Int)
    · simp [takeValid, ha] at h
      rcases h with h | h
      · exact h ▸ ha
      · exact ih i h
    · simp [takeValid, ha] at h

/-- A list whose members all satisfy the bounds passes through the guard
unchanged. -/
theorem takeValid_of_all (N : Nat) (l : List Int)
    (h : ∀ i ∈ l, 0 ≤ i ∧ i < (N : Int)) : takeValid N l = l := by
  induction l with
  | nil => rfl
  | cons a rest ih =>
    have ha := h a (List.mem_cons_self a rest)
    simp [takeValid, ha]
    exact ih (fun i hi => h i (List.mem_cons_of_mem a hi))

/-- Every reference event concerns frame 0. -/
theorem processRefEvents_frameIdx (env : CEnv) :
    ∀ e ∈ (processRefEvents env).1, e.frameIdx = 0 := by
  intro e he
  unfold processRefEvents at he
  repeat' split at he
  all_goals simp at he
  all_goals
    first
      | (rcases he with rfl | rfl | rfl <;> rfl)
      | (rcases he with rfl | rfl <;> rfl)
      | (subst he; rfl)

/-- Every event of the subsequent-frame iteration for frame `i` concerns
frame `i`. -/
theorem processSubEvents_frameIdx (env : CEnv) (i : Nat) :
    ∀ e ∈ processSubEvents env i, e.frameIdx = i := by
  intro e he
  unfold processSubEvents at he
  repeat' split at he
  all_goals simp at he
  all_goals
    first
      | (rcases he with rfl | rfl | rfl | rfl | rfl | rfl | rfl <;> rfl)
      | (rcases he with rfl | rfl | rfl | rfl | rfl | rfl <;> rfl)
      | (rcases he with rfl | rfl | rfl | rfl | rfl <;> rfl)
      | (rcases he with rfl | rfl | rfl | rfl <;> rfl)
      | (rcases he with rfl | rfl | rfl <;> rfl)
      | (rcases he with rfl | rfl <;> rfl)
      | (subst he; rfl)

/-- The subsequent-frame iteration always records at least one event. -/
theorem processSubEvents_ne_nil (env : CEnv) (i : Nat) :
    processSubEvents env i ≠ [] := by
  unfold processSubEvents
  repeat' split
  all_goals simp

/-- When the first frame has images and all reference invocations succeed,
a colalign run is the reference events followed by the per-frame events of
frames `1..N-1`, and it completes. -/
theorem colalignRun_success (env : CEnv) (N : Nat)
    (h0 : env.hasImages 0 = true) (hr : (processRefEvents env).2 = true) :
    colalignRun env N =
      ((processRefEvents env).1 ++
        ((List.range (N - 1)).map (fun j => processSubEvents env (j + 1))).flatten,
       true) := by
  simp [colalignRun, h0, hr]

/-- When the first frame has images but a reference invocation fails, a
colalign run is the reference events alone and it aborts. -/
theorem colalignRun_refFailed (env : CEnv) (N : Nat)
    (h0 : env.hasImages 0 = true) (hr : (processRefEvents env).2 = false) :
    colalignRun env N = ((processRefEvents env).1, false) := by
  simp [colalignRun, h0, hr]

/-- C2 (claimed: the plan `{start: 4, count: 3, direction: Reverse}` over
`N ≥ 5` frames resolves to `[4, 3, 2]`, three items counting down from the
start): evaluating the scheduler at that plan over 5 frames shows the
reverse loop `range(start, start - count - 1, -1)` in fact selects the
four indices `[4, 3, 2, 1]` — one more than `count`, contradicting the
code's own description of `--count` as the number of frames to process. -/
theorem C2_reverse_plan_eval :
    resolvePlan ⟨4, 3, Direction.Reverse, false⟩ 5 = [4, 3, 2, 1] ∧
    ([4, 3, 2, 1] : List Int) ≠ [4, 3, 2] := by decide

/-- C6: the resolved index sequence of every `BatchPlan` over `N ≥ 1`
discovered frames stays inside `[0, N)`: the in-loop guard truncates a
forward overrun at `N - 1` and a reverse underrun at `0`, so no
out-of-range frame access occurs. -/
theorem C6_resolved_plan_in_bounds (plan : BatchPlan) (N : Nat) (hN : 1 ≤ N) :
    ∀ i ∈ resolvePlan plan N, 0 ≤ i ∧ i < (N : Int) := by
  intro i hi
  obtain ⟨s, c, d, t⟩ := plan
  by_cases ht : t
  · simp [resolvePlan, ht] at hi
    subst hi
    constructor
    · exact le_refl 0
    · omega
  · cases d <;> simp [resolvePlan, ht] at hi <;>
      exact takeValid_bounds N _ i hi

/-- Witness for C6 at the concrete plan `{start: 3, count: 4, Forward}`
over 5 frames, whose resolved sequence `[3, 4]` contains 4. -/
theorem C6_resolved_plan_in_bounds_witness :
    0 ≤ (4 : Int) ∧ (4 : Int) < ((5 : Nat) : Int) :=
  C6_resolved_plan_in_bounds ⟨3, 4, Direction.Forward, false⟩ 5 (by decide) 4
    (by decide)

/-- C9: a nonpositive `count` is replaced by the number of discovered
frames, so the plan is the same as with `count = N`; in particular the
forward plan `{start: 0, count: 0}` resolves to the full index sequence
`[0, 1, ..., N-1]`. -/
theorem C9_nonpositive_count_defaults_to_all :
    (∀ (plan : BatchPlan) (N : Nat), plan.count ≤ 0 →
      resolvePlan plan N = resolvePlan { plan with count := (N : Int) } N) ∧
    (∀ N : Nat, resolvePlan ⟨0, 0, Direction.Forward, false⟩ N =
      (List.range N).map (fun j => (j : Int))) := by
  constructor
  · intro plan N hc
    obtain ⟨s, c, d, t⟩ := plan
    have h1 : effectiveCount c N = (N : Int) := by simp [effectiveCount, hc]
    have h2 : effectiveCount (N : Int) N = (N : Int) := by
      unfold effectiveCount
      split <;> rfl
    by_cases ht : t <;> cases d <;> simp [resolvePlan, ht, h1, h2]
  · intro N
    have h1 : effectiveCount 0 N = (N : Int) := by simp [effectiveCount]
    have htn : ((N : Int)).toNat = N := by omega
    have hb : ∀ i ∈ rawForward 0 N, 0 ≤ i ∧ i < (N : Int) := by
      intro i hi
      simp [rawForward] at hi
      obtain ⟨j, hj, rfl⟩ := hi
      omega
    rw [show resolvePlan ⟨0, 0, Direction.Forward, false⟩ N =
        takeValid N (rawForward 0 (effectiveCount 0 N).toNat) from rfl]
    rw [h1, htn, takeValid_of_all N _ hb]
    simp [rawForward]

/-- Witness for C9 over 3 frames: `count = 0` behaves as `count = 3`, and
the `{start: 0, count: 0}` forward plan selects `[0, 1, 2]`. -/
theorem C9_nonpositive_count_defaults_to_all_witness :
    resolvePlan ⟨0, 0, Direction.Forward, false⟩ 3 =
      resolvePlan ⟨0, ((3 : Nat) : Int), Direction.Forward, false⟩ 3 ∧
    resolvePlan ⟨0, 0, Direction.Forward, false⟩ 3 =
      (List.range 3).map (fun j => (j : Int)) :=
  ⟨C9_nonpositive_count_defaults_to_all.1 ⟨0, 0, Direction.Forward, false⟩ 3
      (by decide),
   C9_nonpositive_count_defaults_to_all.2 3⟩

/-- C1 counterexample: in the batch scheduler — the only program that
resolves a `BatchPlan` — the plan `{start: 4, count: 3, Reverse}` over 5
frames with no failures processes frame 4 first, and frame 0 is never
processed at all, refuting the claim that index 0 is always routed to
reference processing before any other frame of the plan. -/
theorem C1_counterexample :
    (postshotRun (fun _ => false) ⟨4, 3, Direction.Reverse, false⟩ 5).1.head? =
      some 4 ∧
    (0 : Int) ∉
      (postshotRun (fun _ => false) ⟨4, 3, Direction.Reverse, false⟩ 5).1 := by
  decide

/-- C1 amended: the batch scheduler processes exactly its resolved plan in
order with no special routing of index 0, while reference-first processing
exists only in the colalign pipeline, which has no `BatchPlan`: there,
every frame-0 (reference) event precedes every event of a frame with
index at least 1. -/
theorem C1_amended_reference_first_only_in_pipeline :
    (∀ (plan : BatchPlan) (N : Nat),
      postshotRun (fun _ => false) plan N = (resolvePlan plan N, true)) ∧
    (∀ (env : CEnv) (N : Nat), ∃ pre post,
      (colalignRun env N).1 = pre ++ post ∧
      (∀ e ∈ pre, e.frameIdx = 0) ∧
      (∀ e ∈ post, 1 ≤ e.frameIdx)) := by
  constructor
  · intro plan N
    unfold postshotRun
    by_cases ht : plan.testMode
    · simp [ht, resolvePlan]
    · simp [ht, trainLoop_noFail]
  · intro env N
    by_cases h0 : env.hasImages 0 = false
    · exact ⟨[], [], by simp [colalignRun, h0], by simp, by simp⟩
    · have h0' : env.hasImages 0 = true := by
        cases hb : env.hasImages 0
        · exact absurd hb h0
        · rfl
      by_cases hr : (processRefEvents env).2 = true
      · refine ⟨(processRefEvents env).1,
          ((List.range (N - 1)).map (fun j => processSubEvents env (j + 1))).flatten,
          ?_, processRefEvents_frameIdx env, ?_⟩
        · rw [colalignRun_success env N h0' hr]
        · intro e he
          simp only [List.mem_flatten, List.mem_map] at he
          obtain ⟨l, ⟨j, hj, rfl⟩, hel⟩ := he
          have hf := processSubEvents_frameIdx env (j + 1) e hel
          omega
      · have hr' : (processRefEvents env).2 = false := by
          cases hb : (processRefEvents env).2
          · rfl
          · exact absurd hb hr
        refine ⟨(processRefEvents env).1, [], ?_, processRefEvents_frameIdx env,
          by simp⟩
        rw [colalignRun_refFailed env N h0' hr']
        simp

/-- C3 counterexample: in the batch scheduler, the forward plan
`{start: 1, count: 3}` over 5 frames resolves to `[1, 2, 3]`, yet when
frame 2's training fails the run stops there — frame 3, the next index of
the resolved plan, is never processed, refuting continue-on-error for
resolved plans. -/
theorem C3_counterexample :
    postshotRun (fun i => decide (i = 2)) ⟨1, 3, Direction.Forward, false⟩ 5 =
      ([1, 2], false) ∧
    (3 : Int) ∈ resolvePlan ⟨1, 3, Direction.Forward, false⟩ 5 := by
  decide

/-- C3 amended: continue-on-error holds only in the colalign pipeline —
when the reference succeeds, the run completes and every frame `1..N-1` is
handled, and a failing subsequent frame is reported by an event naming it;
in the batch scheduler a frame failure is not caught and stops the loop,
leaving the rest of the plan unprocessed. -/
theorem C3_amended_continue_on_error :
    (∀ (env : CEnv) (N : Nat), env.hasImages 0 = true →
      (processRefEvents env).2 = true →
      (colalignRun env N).2 = true ∧
      ∀ j, 1 ≤ j → j < N → ∃ e ∈ (colalignRun env N).1, e.frameIdx = j) ∧
    (∀ (env : CEnv) (i : Nat), env.hasImages i = true →
      subFrameFails env i = true →
      CEvent.subFail i ∈ processSubEvents env i) ∧
    (∀ (failsAt : Int → Bool) (i : Int) (rest : List Int), failsAt i = true →
      trainLoop failsAt (i :: rest) = ([i], false)) := by
  refine ⟨?_, ?_, ?_⟩
  · intro env N h0 hr
    rw [colalignRun_success env N h0 hr]
    refine ⟨rfl, ?_⟩
    intro j hj1 hjN
    obtain ⟨e, he⟩ := List.exists_mem_of_ne_nil _ (processSubEvents_ne_nil env j)
    refine ⟨e, ?_, processSubEvents_frameIdx env j e he⟩
    simp only [List.mem_append]
    right
    simp only [List.mem_flatten, List.mem_map]
    have hidx : j - 1 + 1 = j := Nat.sub_add_cancel hj1
    exact ⟨processSubEvents env j,
      ⟨j - 1, List.mem_range.mpr (by omega), by rw [hidx]⟩, he⟩
  · intro env i h1 h2
    unfold processSubEvents
    by_cases hrd : env.reconDirExists <;>
    by_cases hc : env.camerasPresent <;>
    by_cases him : env.imagesPresent <;>
    by_cases hp : env.points3DPresent <;>
    by_cases ht0 : env.subToolRc i 0 = 0 <;>
    by_cases ht1 : env.subToolRc i 1 = 0 <;>
    by_cases ht2 : env.subToolRc i 2 = 0 <;>
    simp_all [subFrameFails]
  · intro failsAt i rest hf
    simp [trainLoop, hf]

/-- Witness for C3 amended: over 4 frames with only frame 2's feature
extraction failing, the colalign run completes with every frame handled
and a failure event naming frame 2; the scheduler loop stops at a failing
first element. -/
theorem C3_amended_continue_on_error_witness :
    ((colalignRun envSubFail 4).2 = true ∧
      ∀ j, 1 ≤ j → j < 4 → ∃ e ∈ (colalignRun envSubFail 4).1, e.frameIdx = j) ∧
    CEvent.subFail 2 ∈ processSubEvents envSubFail 2 ∧
    trainLoop (fun i => decide (i = 2)) [2, 3] = ([2], false) :=
  ⟨C3_amended_continue_on_error.1 envSubFail 4 (by decide) (by decide),
   C3_amended_continue_on_error.2.1 envSubFail 2 (by decide) (by decide),
   C3_amended_continue_on_error.2.2 (fun i => decide (i = 2)) 2 [3] (by decide)⟩

/-- C4: when any of the three reference-calibration invocations returns a
nonzero exit status, the colalign run aborts (the uncaught `RuntimeError`
propagates out of `main`) and every event of the run concerns frame 0: no
artifact copy and no tool invocation happens for any frame of index
greater than 0. -/
theorem C4_reference_failure_fail_fast (env : CEnv) (N : Nat)
    (h : env.refToolRc 0 ≠ 0 ∨ env.refToolRc 1 ≠ 0 ∨ env.refToolRc 2 ≠ 0) :
    (colalignRun env N).2 = false ∧
    ∀ e ∈ (colalignRun env N).1, e.frameIdx = 0 := by
  have hr : (processRefEvents env).2 = false := by
    unfold processRefEvents
    rcases h with h | h | h <;> (repeat' split) <;> simp_all
  by_cases h0 : env.hasImages 0 = false
  · constructor <;> simp [colalignRun, h0]
  · have h0' : env.hasImages 0 = true := by
      cases hb : env.hasImages 0
      · exact absurd hb h0
      · rfl
    rw [colalignRun_refFailed env N h0' hr]
    exact ⟨rfl, processRefEvents_frameIdx env⟩

/-- Witness for C4: with the reference mapper invocation failing over 3
frames, the run aborts and touches only frame 0. -/
theorem C4_reference_failure_fail_fast_witness :
    (colalignRun envRefFail 3).2 = false ∧
    ∀ e ∈ (colalignRun envRefFail 3).1, e.frameIdx = 0 :=
  C4_reference_failure_fail_fast envRefFail 3 (Or.inr (Or.inr (by decide)))

/-- C5 counterexample: discovery accepts a `frame_` directory that has no
`images` resource — the filter never inspects it — so discovery does not
require each returned frame to contain an `images` resource. -/
theorem C5_counterexample :
    discoverFrames [⟨"frame_000", true, false⟩] =
      Except.ok [⟨"frame_000", true, false⟩] ∧
    (⟨"frame_000", true, false⟩ : DirEntry).hasImages = false :=
  ⟨rfl, rfl⟩

/-- C5 amended: discovery returns exactly the immediate subdirectories
whose names start with `frame_`, in lexicographic order by name (exactly
as many records as qualifying directories), and fails with an error when
none qualify; it performs no `images` check — that happens later, per
frame. -/
theorem C5_amended_discovery (entries : List DirEntry) :
    (entries.filter frameQualifies = [] →
      discoverFrames entries = Except.error "No frame folders found") ∧
    (entries.filter frameQualifies ≠ [] →
      ∃ l, discoverFrames entries = Except.ok l ∧
        l.length = (entries.filter frameQualifies).length ∧
        List.Sorted entryLE l ∧
        ∀ d, d ∈ l ↔ d ∈ entries.filter frameQualifies) := by
  constructor
  · intro h
    simp [discoverFrames, h]
  · intro h
    refine ⟨List.insertionSort entryLE (entries.filter frameQualifies),
      ?_, ?_, ?_, ?_⟩
    · have hne : List.insertionSort entryLE (entries.filter frameQualifies) ≠
          [] := by
        intro hcontra
        apply h
        have hlen := List.length_insertionSort entryLE
          (entries.filter frameQualifies)
        rw [hcontra] at hlen
        exact List.length_eq_zero.mp hlen.symm
      simp [discoverFrames, List.isEmpty_iff, hne]
    · exact List.length_insertionSort entryLE (entries.filter frameQualifies)
    · exact List.sorted_insertionSort entryLE (entries.filter frameQualifies)
    · intro d
      simp

/-- Witness for C5 amended: two unsorted frame directories are returned
sorted, complete, and exactly the qualifying ones. -/
theorem C5_amended_discovery_witness :
    ∃ l, discoverFrames [⟨"frame_001", true, true⟩, ⟨"frame_000", true, true⟩] =
        Except.ok l ∧
      l.length = (([⟨"frame_001", true, true⟩, ⟨"frame_000", true, true⟩] :
        List DirEntry).filter frameQualifies).length ∧
      List.Sorted entryLE l ∧
      ∀ d, d ∈ l ↔
        d ∈ ([⟨"frame_001", true, true⟩, ⟨"frame_000", true, true⟩] :
          List DirEntry).filter frameQualifies :=
  (C5_amended_discovery _).2 (by decide)

/-- C7 counterexample: two failing invocations with different argv and
different captured stdout/stderr raise identical errors — the raised
tool-level error is a function of the exit code alone, so it carries
neither the captured output nor the argv, and the frame-level report built
from it cannot surface them either. -/
theorem C7_counterexample :
    (run_colmap_command ["colmap", "mapper"] ⟨1, "outputA", "errorA"⟩).2 =
      (run_colmap_command ["colmap", "feature_extractor"]
        ⟨1, "outputB", "errorB"⟩).2 :=
  rfl

/-- C7 amended: on failure the tool-level console log contains the failing
command's argv and its captured stdout and stderr (output is printed, not
swallowed), but the raised error of both runners depends only on the exit
code — the frame-level failure report, built from the frame name and that
raised message, therefore carries the frame identity and exit code but not
the captured output or argv. -/
theorem C7_amended_failure_reporting :
    (∀ (cmd : List String) (res : ToolResult), res.returncode ≠ 0 →
      ("Error running command: " ++ String.intercalate " " cmd) ∈
        (run_colmap_command cmd res).1 ∧
      ("stdout: " ++ res.stdout) ∈ (run_colmap_command cmd res).1 ∧
      ("stderr: " ++ res.stderr) ∈ (run_colmap_command cmd res).1) ∧
    (∀ (cmd cmd' : List String) (res res' : ToolResult),
      res.returncode ≠ 0 → res.returncode = res'.returncode →
      (run_colmap_command cmd res).2 = (run_colmap_command cmd' res').2) ∧
    (∀ (cmd cmd' : List String) (out out' : List String) (rc : Int),
      (run_command cmd out rc).2 = (run_command cmd' out' rc).2) := by
  refine ⟨?_, ?_, ?_⟩
  · intro cmd res h
    simp [run_colmap_command, h]
  · intro cmd cmd' res res' h heq
    rw [run_colmap_command, run_colmap_command, ← heq]
    simp [h]
  · intro cmd cmd' out out' rc
    by_cases h : rc = 0 <;> simp [run_command, h]

/-- Witness for C7 amended at concrete failing invocations. -/
theorem C7_amended_failure_reporting_witness :
    (("Error running command: " ++ String.intercalate " " ["colmap", "mapper"]) ∈
        (run_colmap_command ["colmap", "mapper"] ⟨1, "oA", "eA"⟩).1 ∧
      ("stdout: " ++ "oA") ∈
        (run_colmap_command ["colmap", "mapper"] ⟨1, "oA", "eA"⟩).1 ∧
      ("stderr: " ++ "eA") ∈
        (run_colmap_command ["colmap", "mapper"] ⟨1, "oA", "eA"⟩).1) ∧
    (run_colmap_command ["a"] ⟨1, "x", "y"⟩).2 =
      (run_colmap_command ["b"] ⟨1, "u", "v"⟩).2 ∧
    (run_command ["a"] ["line1"] 2).2 = (run_command ["b"] ["line2"] 2).2 :=
  ⟨C7_amended_failure_reporting.1 ["colmap", "mapper"] ⟨1, "oA", "eA"⟩
      (by decide),
   C7_amended_failure_reporting.2.1 ["a"] ["b"] ⟨1, "x", "y"⟩ ⟨1, "u", "v"⟩
      (by decide) rfl,
   C7_amended_failure_reporting.2.2 ["a"] ["b"] ["line1"] ["line2"] 2⟩

/-- C8: the artifact copy phase is idempotent — if it completes without
raising, running it again from the resulting state (the source artifacts
are untouched: only destination paths, in the other frame's workspace, are
written) reproduces exactly the same state with no error. -/
theorem C8_copy_idempotent (fs fs' : ArtifactFS)
    (h : copyArtifacts fs = (fs', none)) :
    copyArtifacts fs' = (fs', none) := by
  obtain ⟨cs, is, ps, cd, idd, pd⟩ := fs
  cases cs with
  | none => simp [copyArtifacts] at h
  | some c =>
    cases is with
    | none => simp [copyArtifacts] at h
    | some im =>
      cases ps with
      | none => simp [copyArtifacts] at h
      | some p =>
        simp only [copyArtifacts, Prod.mk.injEq] at h
        rw [← h.1]
        rfl

/-- Witness for C8: copying the three artifacts a second time from a state
where they were already copied changes nothing. -/
theorem C8_copy_idempotent_witness :
    copyArtifacts
        ⟨some "CAM", some "IMG", some "PTS", some "CAM", some "IMG", some "PTS"⟩ =
      (⟨some "CAM", some "IMG", some "PTS", some "CAM", some "IMG", some "PTS"⟩,
        none) :=
  C8_copy_idempotent
    ⟨some "CAM", some "IMG", some "PTS", none, none, none⟩
    ⟨some "CAM", some "IMG", some "PTS", some "CAM", some "IMG", some "PTS"⟩
    rfl

/-- C10: the copy phase is not atomic on error — artifacts are copied one
at a time in the order cameras.bin, images.bin, points3D.bin, so when
images.bin is missing at the source the destination already holds the
copied cameras.bin, and when points3D.bin is missing it already holds both
cameras.bin and images.bin, even though the operation raises. -/
theorem C10_copy_not_atomic :
    (∀ (fs : ArtifactFS) (c : String),
      fs.camerasSrc = some c → fs.imagesSrc = none →
      copyArtifacts fs =
        ({ fs with camerasDst := some c },
          some "images.bin not found in first frame")) ∧
    (∀ (fs : ArtifactFS) (c im : String),
      fs.camerasSrc = some c → fs.imagesSrc = some im →
      fs.points3DSrc = none →
      copyArtifacts fs =
        ({ fs with camerasDst := some c, imagesDst := some im },
          some "points3D.bin not found in first frame")) := by
  constructor
  · intro fs c h1 h2
    obtain ⟨cs, is, ps, cd, idd, pd⟩ := fs
    dsimp only at h1 h2
    subst h1
    subst h2
    rfl
  · intro fs c im h1 h2 h3
    obtain ⟨cs, is, ps, cd, idd, pd⟩ := fs
    dsimp only at h1 h2 h3
    subst h1
    subst h2
    subst h3
    rfl

/-- Witness for C10: concrete copy phases failing on a missing images.bin
and a missing points3D.bin, with the earlier artifacts already written. -/
theorem C10_copy_not_atomic_witness :
    copyArtifacts ⟨some "CAM", none, some "PTS", none, none, none⟩ =
      (⟨some "CAM", none, some "PTS", some "CAM", none, none⟩,
        some "images.bin not found in first frame") ∧
    copyArtifacts ⟨some "CAM", some "IMG", none, none, none, none⟩ =
      (⟨some "CAM", some "IMG", none, some "CAM", some "IMG", none⟩,
        some "points3D.bin not found in first frame") :=
  ⟨C10_copy_not_atomic.1 ⟨some "CAM", none, some "PTS", none, none, none⟩
      "CAM" rfl rfl,
   C10_copy_not_atomic.2 ⟨some "CAM", some "IMG", none, none, none, none⟩
      "CAM" "IMG" rfl rfl rfl⟩
